import Mathlib

/-!
Verification of the audiomixer binding (src/binding/audiomixer-binding.c).

The development shallowly embeds the transport primitive `session_comm` and
the three verb handlers (`volume`, `mute`, `zone`).  System calls are
modelled by an explicit `World`: the `XDG_RUNTIME_DIR` variable, the
outcomes of `socket` and `connect`, and oracles listing the successive
results of `write` and `read` (a count, or an errno).  The daemon's reply
bytes are a stream `daemonData`; a successful `read` of `n` bytes delivers
its first `n` characters.
-/

/-- Result of one `write`/`read` system call: a byte count, or an errno. -/
inductive Errno
| eagain
| eintr
| other
deriving DecidableEq, Repr

inductive SysRes
| ok (n : Nat)
| err (e : Errno)
deriving DecidableEq, Repr

/-- The environment `session_comm` runs against. -/
structure World where
  runtimeDir : Option String
  socketOk : Bool
  connectOk : Bool
  writeResults : List SysRes
  readResults : List SysRes
  daemonData : List Char
deriving Repr

/-- `#define NAME "pipewire-media-session"`. -/
def NAME : String := "pipewire-media-session"

/-- `sizeof(addr.sun_path)` on the reference platform. -/
def SUN_PATH_SIZE : Nat := 108

/-- The `while (true)` retry loop shared by the write and the read step:
the next result is taken; `EAGAIN`/`EINTR` retry, any other errno sets
`r = 0` and breaks, a count breaks with that count.  `none` models an
oracle that never answers (the loop never exits). -/
def sysLoop : List SysRes → Option Nat
| [] => none
| SysRes.ok n :: _ => some n
| SysRes.err Errno.eagain :: rest => sysLoop rest
| SysRes.err Errno.eintr :: rest => sysLoop rest
| SysRes.err Errno.other :: _ => some 0

/-- Which exit `session_comm` took; `commOk r` is the `return 0` path after
reading `r` bytes. -/
inductive CommExit
| configError
| socketError
| addrTooLong
| connectError
| writeError
| eofError
| commOk (r : Nat)
deriving DecidableEq, Repr

/-- Observables of one `session_comm` call: the exit taken, whether the
socket was created, how many times `close(fd)` ran, whether `connect` was
attempted, how many bytes the successful `write` transferred, the index
at which `reply[r] = '\0'` was stored (when reached), and the bytes
placed in the reply buffer. -/
structure CommTrace where
  exit : CommExit
  socketOpened : Bool
  closes : Nat
  connectAttempted : Bool
  bytesWritten : Nat
  nullIndex : Option Nat
  replyBytes : List Char
deriving DecidableEq, Repr

/-- Shallow embedding of `session_comm(command, reply, reply_size)`.
`snprintf` returns the untruncated length `strlen(runtime_dir) + 1 +
strlen(NAME)`, and `name_size` adds one for the terminator; `write` returns
at most `strlen(command)` and `read` at most `reply_size`, which the model
enforces with `min`. -/
def session_comm (w : World) (command : String) (reply_size : Nat) :
    Option CommTrace :=
  match w.runtimeDir with
  | none => some ⟨CommExit.configError, false, 0, false, 0, none, []⟩
  | some rd =>
    if w.socketOk = false then
      some ⟨CommExit.socketError, false, 0, false, 0, none, []⟩
    else
      if SUN_PATH_SIZE < rd.length + 1 + NAME.length + 1 then
        some ⟨CommExit.addrTooLong, true, 1, false, 0, none, []⟩
      else if w.connectOk = false then
        some ⟨CommExit.connectError, true, 1, true, 0, none, []⟩
      else
        match sysLoop w.writeResults with
        | none => none
        | some wn =>
          if min wn command.length = 0 then
            some ⟨CommExit.writeError, true, 1, true, 0, none, []⟩
          else
            match sysLoop w.readResults with
            | none => none
            | some rn =>
              if min rn reply_size = 0 then
                some ⟨CommExit.eofError, true, 1, true,
                      min wn command.length, none, []⟩
              else
                some ⟨CommExit.commOk (min rn reply_size), true, 1, true,
                      min wn command.length, some (min rn reply_size),
                      w.daemonData.take (min rn reply_size)⟩

/-- `isspace` for the default C locale. -/
def isCSpace (c : Char) : Bool :=
  c = ' ' || c = '\t' || c = '\n' || c = '\x0b' || c = '\x0c' || c = '\r'

def skipSpace : List Char → List Char
| [] => []
| c :: cs => if isCSpace c then skipSpace cs else c :: cs

/-- The digit-accumulation phase of `atoi`. -/
def atoiDigits : List Char → Nat → Nat
| [], acc => acc
| c :: cs, acc =>
  if c.isDigit then atoiDigits cs (acc * 10 + (c.toNat - 48)) else acc

/-- C `atoi`: skip whitespace, optional sign, then digits; no digits
parse to `0`. -/
def atoiChars (l : List Char) : Int :=
  match skipSpace l with
  | '-' :: cs => -(atoiDigits cs 0 : Int)
  | '+' :: cs => (atoiDigits cs 0 : Int)
  | cs => (atoiDigits cs 0 : Int)

def atoi (s : String) : Int := atoiChars s.data

/-- `snprintf(command, sizeof(command), ...)` with `sizeof(command) = 100`
keeps at most 99 characters plus the terminator. -/
def snprintf100 (s : String) : String := ⟨s.data.take 99⟩

/-- What a verb handler reports back to the binder: `afb_req_fail` with a
message, or `afb_req_success` with a one-field JSON object. -/
inductive VerbResult
| fail (msg : String)
| ok (field : String) (value : Int)
deriving DecidableEq, Repr

/-- Observables of one verb-handler call: the reported result, whether
`session_comm` was invoked, the command string passed to it, the exit
`session_comm` took (when invoked), and the reply bytes it produced. -/
structure HandlerTrace where
  result : VerbResult
  transportInvoked : Bool
  commandSent : Option String
  commExit : Option CommExit
  reply : List Char
deriving DecidableEq, Repr

/-- `snprintf(command, sizeof(command), "<verb> %s %d", role, v)`. -/
def mkCommand (verb role : String) (v : Int) : String :=
  snprintf100 (verb ++ " " ++ role ++ " " ++ toString v)

/-- The tail of every verb handler, after `session_comm` returns: a
negative return is reported as `"media-session communication failed"`;
otherwise the reply is parsed with `atoi`, a negative parse is reported
as `"media-session replied -1"`, and anything else succeeds with the
parsed integer under the handler's field name. -/
def classifyExchange (field command : String) (res : Option CommTrace) :
    Option HandlerTrace :=
  match res with
  | none => none
  | some t =>
    match t.exit with
    | CommExit.commOk _ =>
      if atoiChars t.replyBytes < 0 then
        some ⟨VerbResult.fail "media-session replied -1", true,
              some command, some t.exit, t.replyBytes⟩
      else
        some ⟨VerbResult.ok field (atoiChars t.replyBytes), true,
              some command, some t.exit, t.replyBytes⟩
    | e =>
      some ⟨VerbResult.fail "media-session communication failed", true,
            some command, some e, []⟩

/-- Common shape of the three verb handlers: parse the optional value with
`atoi` (the query sentinel `-1` when absent), validate it against
`[0, hi]` and fail without touching the transport when out of range,
format `"<verb> <role> <value>"`, call `session_comm` with the 10-byte
reply buffer, and classify the outcome. -/
def handler (verb field invalidMsg : String) (hi : Int) (w : World)
    (role : String) (value : Option String) : Option HandlerTrace :=
  match value with
  | some s =>
    if atoi s < 0 ∨ hi < atoi s then
      some ⟨VerbResult.fail invalidMsg, false, none, none, []⟩
    else
      classifyExchange field (mkCommand verb role (atoi s))
        (session_comm w (mkCommand verb role (atoi s)) 10)
  | none =>
    classifyExchange field (mkCommand verb role (-1))
      (session_comm w (mkCommand verb role (-1)) 10)

def volume (w : World) (role : String) (value : Option String) :
    Option HandlerTrace :=
  handler "volume" "volume" "Invalid volume value (must be between 0 and 100)"
    100 w role value

def mute (w : World) (role : String) (value : Option String) :
    Option HandlerTrace :=
  handler "mute" "mute" "Invalid mute value (must be between 0 and 1)"
    1 w role value

def zone (w : World) (role : String) (value : Option String) :
    Option HandlerTrace :=
  handler "zone" "zone" "Invalid mute value (must be between 0 and 4)"
    4 w role value

/-! Example environments used by witnesses: a cooperative daemon replying
`"42"`, a daemon overflowing the 10-byte reply buffer, a partial write, a
non-numeric reply, a `-1` reply, a refused connection, and runtime
directories one byte over and exactly at the `sun_path` limit. -/

def wOkVol : World :=
  ⟨some "/run/user/1000", true, true, [SysRes.ok 17], [SysRes.ok 2], "42".data⟩

def wOverflowReply : World :=
  ⟨some "/run/user/1000", true, true, [SysRes.ok 17], [SysRes.ok 10],
   "0123456789".data⟩

def wShortWrite : World :=
  ⟨some "/run/user/1000", true, true, [SysRes.ok 1], [SysRes.ok 2], "42".data⟩

def wTextReply : World :=
  ⟨some "/run/user/1000", true, true, [SysRes.ok 16], [SysRes.ok 2], "ok".data⟩

def wNegReply : World :=
  ⟨some "/run/user/1000", true, true, [SysRes.ok 16], [SysRes.ok 2], "-1".data⟩

def wNoConnect : World := ⟨some "/run/user/1000", true, false, [], [], []⟩

def wLongDir : World :=
  ⟨some (String.mk (List.replicate 85 'a')), true, true, [], [], []⟩

def wFitDir : World :=
  ⟨some (String.mk (List.replicate 84 'a')), true, false, [], [], []⟩

/-- `snprintf` into a 100-byte buffer is the identity whenever the
formatted text fits. -/
theorem snprintf100_of_fits (s : String) (h : s.length ≤ 99) :
    snprintf100 s = s := by
  unfold snprintf100
  cases s with
  | mk data =>
    simp only [String.length] at h
    simp [List.take_of_length_le h]

theorem mkCommand_of_fits (verb role : String) (v : Int)
    (hfit : (verb ++ " " ++ role ++ " " ++ toString v).length ≤ 99) :
    mkCommand verb role v = verb ++ " " ++ role ++ " " ++ toString v :=
  snprintf100_of_fits _ hfit

/-- Once the environment variable is set, the socket created, the path
within bounds and the connection made, `session_comm` is determined by
the two system-call oracles. -/
theorem session_comm_write_step (w : World) (cmd : String) (sz : Nat)
    (rd : String) (hrd : w.runtimeDir = some rd) (hsock : w.socketOk = true)
    (hfit : rd.length + 1 + NAME.length + 1 ≤ SUN_PATH_SIZE)
    (hconn : w.connectOk = true) :
    session_comm w cmd sz =
      match sysLoop w.writeResults with
      | none => none
      | some wn =>
        if min wn cmd.length = 0 then
          some ⟨CommExit.writeError, true, 1, true, 0, none, []⟩
        else
          match sysLoop w.readResults with
          | none => none
          | some rn =>
            if min rn sz = 0 then
              some ⟨CommExit.eofError, true, 1, true, min wn cmd.length,
                    none, []⟩
            else
              some ⟨CommExit.commOk (min rn sz), true, 1, true,
                    min wn cmd.length, some (min rn sz),
                    w.daemonData.take (min rn sz)⟩ := by
  unfold session_comm
  rw [hrd]
  simp [hsock, hconn, Nat.not_lt.mpr hfit]

/-- Every `some` result of `classifyExchange` carries the command it was
given, marks the transport as invoked, and classifies the exchange:
transport failures collapse to the generic message, a reply parsing
negative becomes the daemon-failure message, anything else succeeds with
the parsed integer. -/
theorem classifyExchange_spec (field command : String) (res : Option CommTrace)
    (t : HandlerTrace) (h : classifyExchange field command res = some t) :
    t.commandSent = some command ∧ t.transportInvoked = true ∧
    (∀ e, t.commExit = some e → (∀ r, e ≠ CommExit.commOk r) →
      t.result = VerbResult.fail "media-session communication failed") ∧
    (∀ r, t.commExit = some (CommExit.commOk r) →
      (atoiChars t.reply < 0 →
        t.result = VerbResult.fail "media-session replied -1") ∧
      (0 ≤ atoiChars t.reply →
        t.result = VerbResult.ok field (atoiChars t.reply))) := by
  rcases res with _ | tc
  · simp [classifyExchange] at h
  · obtain ⟨ex, so, cl, ca, bw, ni, rb⟩ := tc
    rcases ex with _ | _ | _ | _ | _ | _ | r0
    case commOk =>
      unfold classifyExchange at h
      dsimp only at h
      split at h <;> injection h with h <;> subst h <;>
        refine ⟨rfl, rfl,
          fun e he hne => absurd (Option.some.inj he).symm (hne r0),
          fun r hr => ⟨fun hs => ?_, fun hs => ?_⟩⟩
      · rfl
      · dsimp only at hs; omega
      · dsimp only at hs; omega
      · rfl
    all_goals
      unfold classifyExchange at h
    all_goals dsimp only at h
    all_goals injection h with h
    all_goals subst h
    all_goals refine ⟨rfl, rfl, fun e he hne => rfl, fun r hr => ?_⟩
    all_goals exact absurd (Option.some.inj hr) (fun hh => CommExit.noConfusion hh)

/-- The classification of `classifyExchange_spec`, lifted to `handler`:
it applies on every path that reaches the transport. -/
theorem handler_classify (verb field msg : String) (hi : Int) (w : World)
    (role : String) (value : Option String) (t : HandlerTrace)
    (h : handler verb field msg hi w role value = some t) :
    (∀ e, t.commExit = some e → (∀ r, e ≠ CommExit.commOk r) →
      t.result = VerbResult.fail "media-session communication failed") ∧
    (∀ r, t.commExit = some (CommExit.commOk r) →
      (atoiChars t.reply < 0 →
        t.result = VerbResult.fail "media-session replied -1") ∧
      (0 ≤ atoiChars t.reply →
        t.result = VerbResult.ok field (atoiChars t.reply))) := by
  unfold handler at h
  rcases value with _ | s
  · exact (classifyExchange_spec _ _ _ _ h).2.2
  · dsimp only at h
    split at h
    · injection h with h; subst h
      exact ⟨fun e he hne => Option.noConfusion he,
             fun r hr => Option.noConfusion hr⟩
    · exact (classifyExchange_spec _ _ _ _ h).2.2

/-- The command string a handler passes to `session_comm`: the sentinel
`-1` when no value is supplied, the parsed value when validation lets it
through. -/
theorem handler_commandSent (verb field msg : String) (hi : Int) (w : World)
    (role s : String) (t : HandlerTrace) :
    (handler verb field msg hi w role none = some t →
      t.commandSent = some (mkCommand verb role (-1)) ∧
      t.transportInvoked = true) ∧
    (¬ (atoi s < 0 ∨ hi < atoi s) →
      handler verb field msg hi w role (some s) = some t →
      t.commandSent = some (mkCommand verb role (atoi s)) ∧
      t.transportInvoked = true) := by
  constructor
  · intro h
    unfold handler at h
    exact ⟨(classifyExchange_spec _ _ _ _ h).1,
           (classifyExchange_spec _ _ _ _ h).2.1⟩
  · intro hval h
    unfold handler at h
    dsimp only at h
    rw [if_neg hval] at h
    exact ⟨(classifyExchange_spec _ _ _ _ h).1,
           (classifyExchange_spec _ _ _ _ h).2.1⟩

/-- C1: the claim fails on the code.  With the handlers' 10-byte reply
buffer (`reply_size = 10`), a daemon reply of at least 10 bytes makes the
read return `r = reply_size`, and `reply[r] = '\0'` stores the
terminator at index 10 — `reply_size`, one byte past the buffer — not at
an index strictly inside it.  The returned bytes are still exactly the
`r` bytes read. -/
theorem c1_null_terminator_at_reply_size :
    session_comm wOverflowReply "volume default -1" 10 =
      some ⟨CommExit.commOk 10, true, 1, true, 17, some 10,
            "0123456789".data⟩ ∧
    ¬ (10 : Nat) < 10 := ⟨by decide, by decide⟩

/-- C2: on every exit of `session_comm` on which the socket was created —
address-too-long, connect failure, write failure, EOF, or success —
`close(fd)` runs exactly once. -/
theorem c2_socket_closed_exactly_once (w : World) (cmd : String) (sz : Nat)
    (t : CommTrace) (h : session_comm w cmd sz = some t)
    (hs : t.socketOpened = true) : t.closes = 1 := by
  unfold session_comm at h
  repeat' split at h
  all_goals try cases h
  all_goals first
    | rfl
    | exact absurd hs (by decide)

theorem c2_witness :
    (⟨CommExit.commOk 2, true, 1, true, 17, some 2, "42".data⟩ :
        CommTrace).closes = 1 :=
  c2_socket_closed_exactly_once wOkVol "volume default 42" 10
    ⟨CommExit.commOk 2, true, 1, true, 17, some 2, "42".data⟩ (by decide) rfl

/-- C3 counterexample: with a write that accepts only 1 of the 17 command
bytes, the exchange still succeeds, so "on success the entire command has
been transmitted" is false: only 1 byte was written. -/
theorem c3_partial_write_counterexample :
    session_comm wShortWrite "volume default 42" 10 =
      some ⟨CommExit.commOk 2, true, 1, true, 1, some 2, "42".data⟩ ∧
    (1 : Nat) ≠ ("volume default 42").length := by
  constructor <;> decide

/-- C3 as amended: the single write is retried on `EAGAIN`/`EINTR`, any
other errno is fatal (`writeError`), a zero-byte write is fatal, and on a
successful exchange a positive number of bytes — at most, but not
necessarily all of, `strlen(command)` — has been transmitted by one
`write` call. -/
theorem c3_write_policy (rd cmd : String) (sz : Nat) (ws rs : List SysRes)
    (dd : List Char)
    (hfit : rd.length + 1 + NAME.length + 1 ≤ SUN_PATH_SIZE) :
    (session_comm ⟨some rd, true, true, SysRes.err Errno.eagain :: ws, rs, dd⟩
        cmd sz =
      session_comm ⟨some rd, true, true, ws, rs, dd⟩ cmd sz) ∧
    (session_comm ⟨some rd, true, true, SysRes.err Errno.eintr :: ws, rs, dd⟩
        cmd sz =
      session_comm ⟨some rd, true, true, ws, rs, dd⟩ cmd sz) ∧
    (session_comm ⟨some rd, true, true, SysRes.err Errno.other :: ws, rs, dd⟩
        cmd sz =
      some ⟨CommExit.writeError, true, 1, true, 0, none, []⟩) ∧
    (session_comm ⟨some rd, true, true, SysRes.ok 0 :: ws, rs, dd⟩ cmd sz =
      some ⟨CommExit.writeError, true, 1, true, 0, none, []⟩) ∧
    (∀ t r,
      session_comm ⟨some rd, true, true, ws, rs, dd⟩ cmd sz = some t →
      t.exit = CommExit.commOk r →
      0 < t.bytesWritten ∧ t.bytesWritten ≤ cmd.length) := by
  refine ⟨?_, ?_, ?_, ?_, ?_⟩
  · rw [session_comm_write_step _ cmd sz rd rfl rfl hfit rfl,
        session_comm_write_step _ cmd sz rd rfl rfl hfit rfl]
    simp [sysLoop]
  · rw [session_comm_write_step _ cmd sz rd rfl rfl hfit rfl,
        session_comm_write_step _ cmd sz rd rfl rfl hfit rfl]
    simp [sysLoop]
  · rw [session_comm_write_step _ cmd sz rd rfl rfl hfit rfl]
    simp [sysLoop]
  · rw [session_comm_write_step _ cmd sz rd rfl rfl hfit rfl]
    simp [sysLoop]
  · intro t r h hexit
    rw [session_comm_write_step _ cmd sz rd rfl rfl hfit rfl] at h
    repeat' split at h
    all_goals try cases h
    all_goals first
      | exact CommExit.noConfusion hexit
      | (dsimp only; constructor <;> omega)

theorem c3_write_policy_witness :
    session_comm ⟨some "/run/user/1000", true, true,
        [SysRes.err Errno.other, SysRes.ok 1], [SysRes.ok 1], "7".data⟩
      "x" 10 =
      some ⟨CommExit.writeError, true, 1, true, 0, none, []⟩ ∧
    (0 < (⟨CommExit.commOk 1, true, 1, true, 1, some 1, "7".data⟩ :
        CommTrace).bytesWritten ∧
      (⟨CommExit.commOk 1, true, 1, true, 1, some 1, "7".data⟩ :
        CommTrace).bytesWritten ≤ "x".length) := by
  constructor
  · exact (c3_write_policy "/run/user/1000" "x" 10 [SysRes.ok 1] [SysRes.ok 1]
      "7".data (by decide)).2.2.1
  · exact (c3_write_policy "/run/user/1000" "x" 10 [SysRes.ok 1] [SysRes.ok 1]
      "7".data (by decide)).2.2.2.2
      ⟨CommExit.commOk 1, true, 1, true, 1, some 1, "7".data⟩ 1 (by decide) rfl

/-- C6: when the runtime directory concatenated with `"/"` and the fixed
service name, plus the null terminator, exceeds the 108-byte `sun_path`
limit, `session_comm` fails with the address-too-long exit without
attempting to connect; a path of exactly 107 characters plus terminator
passes the check. -/
theorem c6_addr_length_check (w : World) (rd cmd : String) (sz : Nat)
    (hrd : w.runtimeDir = some rd) (hsock : w.socketOk = true) :
    (SUN_PATH_SIZE < (rd ++ "/" ++ NAME).length + 1 →
      session_comm w cmd sz =
        some ⟨CommExit.addrTooLong, true, 1, false, 0, none, []⟩) ∧
    ((rd ++ "/" ++ NAME).length + 1 = SUN_PATH_SIZE →
      ∀ t, session_comm w cmd sz = some t → t.exit ≠ CommExit.addrTooLong) := by
  have hlen : (rd ++ "/" ++ NAME).length = rd.length + 1 + NAME.length := by
    simp only [String.length_append]
    norm_num
    rfl
  constructor
  · intro hgt
    rw [hlen] at hgt
    unfold session_comm
    rw [hrd]
    simp [hsock, hgt]
  · intro hle t h hexit
    rw [hlen] at hle
    unfold session_comm at h
    rw [hrd] at h
    repeat' split at h
    all_goals try cases h
    all_goals simp_all

theorem c6_witness :
    session_comm wLongDir "x" 10 =
      some ⟨CommExit.addrTooLong, true, 1, false, 0, none, []⟩ ∧
    (⟨CommExit.connectError, true, 1, true, 0, none, []⟩ :
        CommTrace).exit ≠ CommExit.addrTooLong := by
  constructor
  · exact (c6_addr_length_check wLongDir (String.mk (List.replicate 85 'a'))
      "x" 10 rfl rfl).1 (by decide)
  · exact (c6_addr_length_check wFitDir (String.mk (List.replicate 84 'a'))
      "x" 10 rfl rfl).2 (by decide)
      ⟨CommExit.connectError, true, 1, true, 0, none, []⟩ (by decide)

/-- C7: the read is retried on `EAGAIN`/`EINTR`; a zero-byte read ends the
call with the EOF exit rather than an empty success; and a single read of
`n > 0` bytes succeeds with exactly that one chunk as the reply. -/
theorem c7_read_policy (rd cmd : String) (sz wn : Nat) (ws rs : List SysRes)
    (dd : List Char)
    (hfit : rd.length + 1 + NAME.length + 1 ≤ SUN_PATH_SIZE)
    (hw : sysLoop ws = some wn) (hwpos : 0 < min wn cmd.length) :
    (session_comm ⟨some rd, true, true, ws, SysRes.err Errno.eagain :: rs, dd⟩
        cmd sz =
      session_comm ⟨some rd, true, true, ws, rs, dd⟩ cmd sz) ∧
    (session_comm ⟨some rd, true, true, ws, SysRes.err Errno.eintr :: rs, dd⟩
        cmd sz =
      session_comm ⟨some rd, true, true, ws, rs, dd⟩ cmd sz) ∧
    (session_comm ⟨some rd, true, true, ws, SysRes.ok 0 :: rs, dd⟩ cmd sz =
      some ⟨CommExit.eofError, true, 1, true, min wn cmd.length, none, []⟩) ∧
    (∀ n, 0 < min n sz →
      session_comm ⟨some rd, true, true, ws, SysRes.ok n :: rs, dd⟩ cmd sz =
        some ⟨CommExit.commOk (min n sz), true, 1, true, min wn cmd.length,
              some (min n sz), dd.take (min n sz)⟩) := by
  refine ⟨?_, ?_, ?_, ?_⟩
  · rw [session_comm_write_step _ cmd sz rd rfl rfl hfit rfl,
        session_comm_write_step _ cmd sz rd rfl rfl hfit rfl]
    dsimp only
    rw [hw]
    simp [sysLoop, Nat.pos_iff_ne_zero.mp hwpos]
  · rw [session_comm_write_step _ cmd sz rd rfl rfl hfit rfl,
        session_comm_write_step _ cmd sz rd rfl rfl hfit rfl]
    dsimp only
    rw [hw]
    simp [sysLoop, Nat.pos_iff_ne_zero.mp hwpos]
  · rw [session_comm_write_step _ cmd sz rd rfl rfl hfit rfl]
    dsimp only
    rw [hw]
    simp [sysLoop, Nat.pos_iff_ne_zero.mp hwpos]
  · intro n hn
    rw [session_comm_write_step _ cmd sz rd rfl rfl hfit rfl]
    dsimp only
    rw [hw]
    simp [sysLoop, Nat.pos_iff_ne_zero.mp hwpos, Nat.pos_iff_ne_zero.mp hn]

theorem c7_witness :
    session_comm ⟨some "/run/user/1000", true, true, [SysRes.ok 15],
        [SysRes.ok 0], "123".data⟩ "mute default -1" 10 =
      some ⟨CommExit.eofError, true, 1, true, 15, none, []⟩ ∧
    session_comm ⟨some "/run/user/1000", true, true, [SysRes.ok 15],
        [SysRes.ok 3], "123".data⟩ "mute default -1" 10 =
      some ⟨CommExit.commOk 3, true, 1, true, 15, some 3, "123".data⟩ := by
  constructor
  · exact (c7_read_policy "/run/user/1000" "mute default -1" 10 15
      [SysRes.ok 15] [] "123".data (by decide) (by decide) (by decide)).2.2.1
  · exact (c7_read_policy "/run/user/1000" "mute default -1" 10 15
      [SysRes.ok 15] [] "123".data (by decide) (by decide) (by decide)).2.2.2
      3 (by decide)

/-- C4: for each of the three verb handlers, every transport-level
failure (any `session_comm` exit other than success — missing variable,
socket, path, connect, write, or read failure) yields the one generic
`"media-session communication failed"` error, while a transport success
whose reply parses negative yields the distinct
`"media-session replied -1"` daemon-failure error. -/
theorem c4_transport_failure_collapsed (w : World) (role : String)
    (value : Option String) (t : HandlerTrace) :
    ((volume w role value = some t ∨ mute w role value = some t ∨
        zone w role value = some t) →
      (∀ e, t.commExit = some e → (∀ r, e ≠ CommExit.commOk r) →
        t.result = VerbResult.fail "media-session communication failed") ∧
      (∀ r, t.commExit = some (CommExit.commOk r) →
        atoiChars t.reply < 0 →
        t.result = VerbResult.fail "media-session replied -1")) ∧
    "media-session communication failed" ≠ "media-session replied -1" := by
  constructor
  · rintro (h | h | h) <;>
      exact ⟨(handler_classify _ _ _ _ _ _ _ _ h).1,
        fun r hr hneg => ((handler_classify _ _ _ _ _ _ _ _ h).2 r hr).1 hneg⟩
  · decide

theorem c4_witness :
    (⟨VerbResult.fail "media-session communication failed", true,
      some "volume default -1", some CommExit.connectError, []⟩ :
        HandlerTrace).result =
      VerbResult.fail "media-session communication failed" ∧
    (⟨VerbResult.fail "media-session replied -1", true,
      some "volume default -1", some (CommExit.commOk 2), "-1".data⟩ :
        HandlerTrace).result = VerbResult.fail "media-session replied -1" := by
  constructor
  · exact ((c4_transport_failure_collapsed wNoConnect "default" none
      ⟨VerbResult.fail "media-session communication failed", true,
       some "volume default -1", some CommExit.connectError, []⟩).1
      (Or.inl (by decide))).1 CommExit.connectError rfl
      (fun r hh => CommExit.noConfusion hh)
  · exact ((c4_transport_failure_collapsed wNegReply "default" none
      ⟨VerbResult.fail "media-session replied -1", true,
       some "volume default -1", some (CommExit.commOk 2), "-1".data⟩).1
      (Or.inl (by decide))).2 2 rfl (by decide)

/-- C5: a supplied value whose `atoi` parse lies outside the verb's range
(volume 0–100, mute 0–1, zone 0–4) makes the handler fail immediately
with its validation message; the returned trace shows the transport was
never invoked — no command built, no socket touched. -/
theorem c5_out_of_range_skips_transport (w : World) (role s : String) :
    ((atoi s < 0 ∨ 100 < atoi s) →
      volume w role (some s) =
        some ⟨VerbResult.fail
          "Invalid volume value (must be between 0 and 100)",
          false, none, none, []⟩) ∧
    ((atoi s < 0 ∨ 1 < atoi s) →
      mute w role (some s) =
        some ⟨VerbResult.fail "Invalid mute value (must be between 0 and 1)",
          false, none, none, []⟩) ∧
    ((atoi s < 0 ∨ 4 < atoi s) →
      zone w role (some s) =
        some ⟨VerbResult.fail "Invalid mute value (must be between 0 and 4)",
          false, none, none, []⟩) := by
  refine ⟨?_, ?_, ?_⟩ <;> intro hrange <;>
    simp [volume, mute, zone, handler, hrange]

theorem c5_witness :
    volume wOkVol "default" (some "101") =
      some ⟨VerbResult.fail "Invalid volume value (must be between 0 and 100)",
        false, none, none, []⟩ ∧
    mute wOkVol "default" (some "101") =
      some ⟨VerbResult.fail "Invalid mute value (must be between 0 and 1)",
        false, none, none, []⟩ ∧
    zone wOkVol "default" (some "101") =
      some ⟨VerbResult.fail "Invalid mute value (must be between 0 and 4)",
        false, none, none, []⟩ := by
  refine ⟨?_, ?_, ?_⟩
  · exact (c5_out_of_range_skips_transport wOkVol "default" "101").1
      (by decide)
  · exact (c5_out_of_range_skips_transport wOkVol "default" "101").2.1
      (by decide)
  · exact (c5_out_of_range_skips_transport wOkVol "default" "101").2.2
      (by decide)

/-- C8: each handler sends `"<verb> <role> <value>"` — the sentinel `-1`
when no value is supplied, the parsed value when a valid one is — and in
the concrete scenario `GetOrSetVolume("default", 42)` the request is
exactly `"volume default 42"` and the reply `"42"` produces the result
`{volume: 42}`.  (The general clauses assume the formatted command fits
the 100-byte buffer, within which `snprintf` does not truncate.) -/
theorem c8_wire_format (w : World) (role s : String) :
    (∀ t, ("volume" ++ " " ++ role ++ " " ++ "-1").length ≤ 99 →
      volume w role none = some t →
      t.commandSent = some ("volume" ++ " " ++ role ++ " " ++ "-1")) ∧
    (∀ t, ("mute" ++ " " ++ role ++ " " ++ "-1").length ≤ 99 →
      mute w role none = some t →
      t.commandSent = some ("mute" ++ " " ++ role ++ " " ++ "-1")) ∧
    (∀ t, ("zone" ++ " " ++ role ++ " " ++ "-1").length ≤ 99 →
      zone w role none = some t →
      t.commandSent = some ("zone" ++ " " ++ role ++ " " ++ "-1")) ∧
    (∀ t, 0 ≤ atoi s → atoi s ≤ 100 →
      ("volume" ++ " " ++ role ++ " " ++ toString (atoi s)).length ≤ 99 →
      volume w role (some s) = some t →
      t.commandSent =
        some ("volume" ++ " " ++ role ++ " " ++ toString (atoi s))) ∧
    (∀ t, 0 ≤ atoi s → atoi s ≤ 1 →
      ("mute" ++ " " ++ role ++ " " ++ toString (atoi s)).length ≤ 99 →
      mute w role (some s) = some t →
      t.commandSent =
        some ("mute" ++ " " ++ role ++ " " ++ toString (atoi s))) ∧
    (∀ t, 0 ≤ atoi s → atoi s ≤ 4 →
      ("zone" ++ " " ++ role ++ " " ++ toString (atoi s)).length ≤ 99 →
      zone w role (some s) = some t →
      t.commandSent =
        some ("zone" ++ " " ++ role ++ " " ++ toString (atoi s))) ∧
    volume wOkVol "default" (some "42") =
      some ⟨VerbResult.ok "volume" 42, true, some "volume default 42",
            some (CommExit.commOk 2), "42".data⟩ := by
  refine ⟨?_, ?_, ?_, ?_, ?_, ?_, by decide⟩
  · intro t hlen h
    rw [((handler_commandSent "volume" "volume"
        "Invalid volume value (must be between 0 and 100)" 100 w role s t).1
        h).1]
    rw [mkCommand_of_fits _ _ _ hlen]
    rfl
  · intro t hlen h
    rw [((handler_commandSent "mute" "mute"
        "Invalid mute value (must be between 0 and 1)" 1 w role s t).1 h).1]
    rw [mkCommand_of_fits _ _ _ hlen]
    rfl
  · intro t hlen h
    rw [((handler_commandSent "zone" "zone"
        "Invalid mute value (must be between 0 and 4)" 4 w role s t).1 h).1]
    rw [mkCommand_of_fits _ _ _ hlen]
    rfl
  · intro t h0 h1 hlen h
    rw [((handler_commandSent "volume" "volume"
        "Invalid volume value (must be between 0 and 100)" 100 w role s t).2
        (by omega) h).1]
    rw [mkCommand_of_fits _ _ _ hlen]
  · intro t h0 h1 hlen h
    rw [((handler_commandSent "mute" "mute"
        "Invalid mute value (must be between 0 and 1)" 1 w role s t).2
        (by omega) h).1]
    rw [mkCommand_of_fits _ _ _ hlen]
  · intro t h0 h1 hlen h
    rw [((handler_commandSent "zone" "zone"
        "Invalid mute value (must be between 0 and 4)" 4 w role s t).2
        (by omega) h).1]
    rw [mkCommand_of_fits _ _ _ hlen]

theorem c8_witness :
    (⟨VerbResult.fail "media-session communication failed", true,
      some "volume default -1", some CommExit.connectError, []⟩ :
        HandlerTrace).commandSent =
      some ("volume" ++ " " ++ "default" ++ " " ++ "-1") ∧
    (⟨VerbResult.ok "volume" 42, true, some "volume default 42",
      some (CommExit.commOk 2), "42".data⟩ :
        HandlerTrace).commandSent =
      some ("volume" ++ " " ++ "default" ++ " " ++ toString (atoi "42")) := by
  constructor
  · exact (c8_wire_format wNoConnect "default" "42").1
      ⟨VerbResult.fail "media-session communication failed", true,
       some "volume default -1", some CommExit.connectError, []⟩
      (by decide) (by decide)
  · exact (c8_wire_format wOkVol "default" "42").2.2.2.1
      ⟨VerbResult.ok "volume" 42, true, some "volume default 42",
       some (CommExit.commOk 2), "42".data⟩
      (by decide) (by decide) (by decide) (by decide)

/-- C9: a supplied value string whose C `atoi` parse is `0` — including
non-numeric text such as `"abc"` — passes every verb's validation, the
transport is invoked, and the set command `"<verb> <role> 0"` is sent:
the value is neither rejected nor turned into the `-1` query sentinel. -/
theorem c9_atoi_zero_value_sent (w : World) (role s : String)
    (hz : atoi s = 0) :
    (∀ t, ("volume" ++ " " ++ role ++ " " ++ "0").length ≤ 99 →
      volume w role (some s) = some t →
      t.transportInvoked = true ∧
      t.commandSent = some ("volume" ++ " " ++ role ++ " " ++ "0")) ∧
    (∀ t, ("mute" ++ " " ++ role ++ " " ++ "0").length ≤ 99 →
      mute w role (some s) = some t →
      t.transportInvoked = true ∧
      t.commandSent = some ("mute" ++ " " ++ role ++ " " ++ "0")) ∧
    (∀ t, ("zone" ++ " " ++ role ++ " " ++ "0").length ≤ 99 →
      zone w role (some s) = some t →
      t.transportInvoked = true ∧
      t.commandSent = some ("zone" ++ " " ++ role ++ " " ++ "0")) := by
  refine ⟨?_, ?_, ?_⟩
  · intro t hlen h
    have hcs := (handler_commandSent "volume" "volume"
      "Invalid volume value (must be between 0 and 100)" 100 w role s t).2
      (by omega) h
    refine ⟨hcs.2, ?_⟩
    rw [hcs.1, hz]
    rw [mkCommand_of_fits _ _ _ hlen]
    rfl
  · intro t hlen h
    have hcs := (handler_commandSent "mute" "mute"
      "Invalid mute value (must be between 0 and 1)" 1 w role s t).2
      (by omega) h
    refine ⟨hcs.2, ?_⟩
    rw [hcs.1, hz]
    rw [mkCommand_of_fits _ _ _ hlen]
    rfl
  · intro t hlen h
    have hcs := (handler_commandSent "zone" "zone"
      "Invalid mute value (must be between 0 and 4)" 4 w role s t).2
      (by omega) h
    refine ⟨hcs.2, ?_⟩
    rw [hcs.1, hz]
    rw [mkCommand_of_fits _ _ _ hlen]
    rfl

theorem c9_witness :
    (⟨VerbResult.ok "volume" 42, true, some "volume default 0",
      some (CommExit.commOk 2), "42".data⟩ :
        HandlerTrace).transportInvoked = true ∧
    (⟨VerbResult.ok "volume" 42, true, some "volume default 0",
      some (CommExit.commOk 2), "42".data⟩ :
        HandlerTrace).commandSent =
      some ("volume" ++ " " ++ "default" ++ " " ++ "0") :=
  (c9_atoi_zero_value_sent wOkVol "default" "abc" (by decide)).1
    ⟨VerbResult.ok "volume" 42, true, some "volume default 0",
     some (CommExit.commOk 2), "42".data⟩
    (by decide) (by decide)

/-- C10: on transport success the handlers run C `atoi` over the raw
reply bytes with no numeral validation: any reply parsing non-negative —
non-numeric text parses to 0 — succeeds with that integer under the
verb's field name, and only a strictly negative parse is reported as the
daemon failure. -/
theorem c10_reply_parsed_with_atoi (w : World) (role : String)
    (value : Option String) (t : HandlerTrace) (r : Nat) :
    (volume w role value = some t →
      t.commExit = some (CommExit.commOk r) →
      (0 ≤ atoiChars t.reply →
        t.result = VerbResult.ok "volume" (atoiChars t.reply)) ∧
      (atoiChars t.reply < 0 →
        t.result = VerbResult.fail "media-session replied -1")) ∧
    (mute w role value = some t →
      t.commExit = some (CommExit.commOk r) →
      (0 ≤ atoiChars t.reply →
        t.result = VerbResult.ok "mute" (atoiChars t.reply)) ∧
      (atoiChars t.reply < 0 →
        t.result = VerbResult.fail "media-session replied -1")) ∧
    (zone w role value = some t →
      t.commExit = some (CommExit.commOk r) →
      (0 ≤ atoiChars t.reply →
        t.result = VerbResult.ok "zone" (atoiChars t.reply)) ∧
      (atoiChars t.reply < 0 →
        t.result = VerbResult.fail "media-session replied -1")) := by
  refine ⟨?_, ?_, ?_⟩ <;> intro h hr <;>
    exact ⟨((handler_classify _ _ _ _ _ _ _ _ h).2 r hr).2,
           ((handler_classify _ _ _ _ _ _ _ _ h).2 r hr).1⟩

theorem c10_witness :
    (⟨VerbResult.ok "volume" 0, true, some "volume default -1",
      some (CommExit.commOk 2), "ok".data⟩ :
        HandlerTrace).result =
      VerbResult.ok "volume"
        (atoiChars (⟨VerbResult.ok "volume" 0, true, some "volume default -1",
          some (CommExit.commOk 2), "ok".data⟩ : HandlerTrace).reply) :=
  ((c10_reply_parsed_with_atoi wTextReply "default" none
    ⟨VerbResult.ok "volume" 0, true, some "volume default -1",
     some (CommExit.commOk 2), "ok".data⟩ 2).1
    (by decide) rfl).1 (by decide)
